import Mathlib

/-
Verification of the Stonekeep save-game editor (src/stonekeep.py).

Shallow embedding conventions:
- A byte string (the content of the target save file) is a List Nat, one
  entry per byte.
- The file system, as far as one target path is concerned, is an
  Option (List Nat): none means no file exists at the path (opening it in
  mode rb+ raises FileNotFoundError and creates nothing), some content is
  the current byte content of the existing file.
- Python integers are Int.
- Raw text (user input, path strings) is List Char, so that the string
  operations of the source (strip, lower, slicing) are explicit and
  decidable.
- Each raise site of the source becomes one constructor of an error type;
  the source distinguishes them by distinct message text, so this is
  faithful. Each print call of the source becomes one structured Msg value
  carrying the data interpolated into the message.
-/

/-- The two playable characters, mirroring enum character_name of the source. -/
inductive character_name where
  | Drake
  | Farley
  deriving DecidableEq, Repr

/-- The two editable stats, mirroring enum attributes of the source. -/
inductive attributes where
  | health
  | agility
  deriving DecidableEq, Repr

/-- The ATTRIBUTE_VALUES dictionary of the source: the value written to the
save file when the given attribute is selected. Total over attributes. -/
def ATTRIBUTE_VALUES : attributes → Int
  | attributes.health => 255
  | attributes.agility => 10

/-- The nested OFFSETS dictionary of the source, curried. A pair that is
absent from the nested dictionaries maps to none; indexing a Python dict
with an absent key raises KeyError, which the embedding of the lookup turns
into an explicit error below. The pair (Farley, agility) is the single
absent pair. -/
def OFFSETS : character_name → attributes → Option Int
  | character_name.Drake, attributes.health => some 340
  | character_name.Drake, attributes.agility => some 99999
  | character_name.Farley, attributes.health => some 99999
  | character_name.Farley, attributes.agility => none

/-- The exception a Python dict lookup raises on a missing key. -/
inductive LookupExc where
  | keyError
  deriving DecidableEq, Repr

/-- The offset lookup performed by edit_menu (line 223 of the source):
OFFSETS[character.name][character.attributes]. A missing key raises
KeyError; edit_menu wraps the lookup in no handler, so the error
propagates and the process crashes. -/
def edit_menu_lookup (c : character_name) (a : attributes) : Except LookupExc Int :=
  match OFFSETS c a with
  | some o => Except.ok o
  | none => Except.error LookupExc.keyError

/-- Which of the distinct ValueError raise sites inside binary_write fired.
The source gives each site its own message text. -/
inductive ValueErrKind where
  /-- Offset must be non-negitive (line 124). -/
  | negOffset
  /-- Value must no exceed max value (line 126). -/
  | range
  /-- Offset is beyound end of file (line 134). -/
  | beyond
  /-- The conversion bytes of a value outside 0..255 raises
  a ValueError from inside the Python runtime (line 138). -/
  | byteRange
  deriving DecidableEq, Repr

/-- The exception classes that can escape the body of binary_write and that
its except clauses distinguish. -/
inductive PyExc where
  | valueError (k : ValueErrKind)
  | fileNotFoundError
  | osError
  deriving DecidableEq, Repr

/-- One message printed by binary_write, with the data the source
interpolates into the corresponding format string. -/
inductive Msg where
  /-- Wrote value v to offset o (line 140). -/
  | wrote (value offset : Int)
  /-- File not found (line 143). -/
  | fileNotFound
  /-- Value Error with the message of the given raise site (line 145). -/
  | valueError (k : ValueErrKind)
  /-- OS Error (line 147). -/
  | osError
  deriving DecidableEq, Repr

/-- Python bytes applied to the one-element list containing value: yields the
single byte value when 0 <= value <= 255 and raises ValueError otherwise. -/
def bytesOfList (value : Int) : Option Nat :=
  if 0 ≤ value ∧ value ≤ 255 then some value.toNat else none

/-- The body of binary_write, that is the code inside its try block, as a
function from the inputs and the state of the target file to either the new
file content or the first exception raised. Mirrors lines 123-140 of the
source: the offset sign check, the value range check, opening the file in
mode rb+ (raising FileNotFoundError when the path has no file), the seek to
the end to measure the size, the end-of-file bound check, and finally the
seek plus single-byte write, whose byte conversion can itself raise. -/
def binary_write_body (value max_value offset : Int) (fs : Option (List Nat)) :
    Except PyExc (List Nat) :=
  if offset < 0 then
    Except.error (PyExc.valueError ValueErrKind.negOffset)
  else if ¬ (0 ≤ value ∧ value ≤ max_value) then
    Except.error (PyExc.valueError ValueErrKind.range)
  else
    match fs with
    | none => Except.error PyExc.fileNotFoundError
    | some content =>
      if (content.length : Int) ≤ offset then
        Except.error (PyExc.valueError ValueErrKind.beyond)
      else
        match bytesOfList value with
        | none => Except.error (PyExc.valueError ValueErrKind.byteRange)
        | some b => Except.ok (content.set offset.toNat b)

/-- The outcome of one call to binary_write: the state of the target file
after the call, and the messages the function printed, in order. The Python
function itself returns None on every path, so there is no result channel. -/
structure BWResult where
  fs : Option (List Nat)
  printed : List Msg
  deriving DecidableEq, Repr

/-- binary_write of the source (lines 104-147): runs the body and handles
every exception class the body can raise with the except clauses of lines
142-147, each of which prints one message; on success the body has replaced
one byte and line 140 prints the success message. No exception escapes. -/
def binary_write (value max_value offset : Int) (fs0 : Option (List Nat)) : BWResult :=
  match binary_write_body value max_value offset fs0 with
  | Except.ok content => { fs := some content, printed := [Msg.wrote value offset] }
  | Except.error PyExc.fileNotFoundError => { fs := fs0, printed := [Msg.fileNotFound] }
  | Except.error (PyExc.valueError k) => { fs := fs0, printed := [Msg.valueError k] }
  | Except.error PyExc.osError => { fs := fs0, printed := [Msg.osError] }

/-- The whitespace characters that the Python strip with no argument removes
from the ends of an ASCII string: space, tab, newline, carriage return,
vertical tab, form feed. -/
def pyIsSpace (c : Char) : Bool :=
  c = Char.ofNat 32 || c = Char.ofNat 9 || c = Char.ofNat 10 ||
  c = Char.ofNat 13 || c = Char.ofNat 11 || c = Char.ofNat 12

/-- Python strip with a character set: removes every leading and every
trailing character satisfying p, touching nothing in the interior.
List.rdropWhile removes the matching trailing run. -/
def stripChars (p : Char → Bool) (s : List Char) : List Char :=
  (s.dropWhile p).rdropWhile p

/-- clean_file_path of the source (lines 149-166), up to the final Path
constructor: strip surrounding whitespace, remove one leading ampersand
plus space prefix when present, then strip surrounding double quotes and
surrounding single quotes. The returned character list is the string handed
to Path. -/
def clean_file_path (raw_path : List Char) : List Char :=
  let cleaned := stripChars pyIsSpace raw_path
  let cleaned := if cleaned.take 2 = [Char.ofNat 38, Char.ofNat 32]
    then cleaned.drop 2 else cleaned
  let cleaned := stripChars (fun c => c = Char.ofNat 34) cleaned
  stripChars (fun c => c = Char.ofNat 39) cleaned

/-- What one pass of main_menu does after reading a line of input: either
terminate the process with an exit status (the quit call of line 270 raises
SystemExit with code 0, which ends the interpreter with that status),
select a character and proceed to edit_menu, or redisplay the menu. -/
inductive MainAction where
  | exitProcess (code : Nat)
  | select (c : character_name)
  | redisplay
  deriving DecidableEq, Repr

/-- One step of main_menu: the lines it prints while handling the choice and
the resulting action. -/
structure MainStep where
  printed : List (List Char)
  action : MainAction
  deriving DecidableEq, Repr

/-- The lowercasing the source applies to user input. -/
def pyLower (s : List Char) : List Char :=
  s.map Char.toLower

/-- The choice handling of main_menu (lines 264-283 of the source): the raw
input line is stripped and lowercased, then matched. Choice 0 prints the
farewell and quits with status 0; choices 1 and 2 select Drake and Farley;
anything else prints a notice and redisplays the menu. -/
def main_menu_choice (raw : List Char) : MainStep :=
  let choice := pyLower (stripChars pyIsSpace raw)
  if choice = [Char.ofNat 48] then
    { printed := [[Char.ofNat 66, Char.ofNat 89, Char.ofNat 69, Char.ofNat 33, Char.ofNat 33]],
      action := MainAction.exitProcess 0 }
  else if choice = [Char.ofNat 49] then
    { printed := [], action := MainAction.select character_name.Drake }
  else if choice = [Char.ofNat 50] then
    { printed := [], action := MainAction.select character_name.Farley }
  else
    { printed := [[Char.ofNat 83, Char.ofNat 101, Char.ofNat 108, Char.ofNat 101,
                   Char.ofNat 99, Char.ofNat 116, Char.ofNat 105, Char.ofNat 111,
                   Char.ofNat 110, Char.ofNat 32, Char.ofNat 110, Char.ofNat 111,
                   Char.ofNat 116, Char.ofNat 32, Char.ofNat 102, Char.ofNat 111,
                   Char.ofNat 117, Char.ofNat 110, Char.ofNat 100]],
      action := MainAction.redisplay }

/-- Predicate on a printed transcript: some success message (a wrote line)
appears in it. Decidable so that witnesses can evaluate it. -/
def hasWrote : List Msg → Bool
  | [] => false
  | Msg.wrote _ _ :: _ => true
  | _ :: ms => hasWrote ms

/-- The message each except clause of binary_write prints for the exception
class it catches. -/
def msgOfExc : PyExc → Msg
  | PyExc.valueError k => Msg.valueError k
  | PyExc.fileNotFoundError => Msg.fileNotFound
  | PyExc.osError => Msg.osError

theorem binary_write_body_neg (value max_value offset : Int) (fs : Option (List Nat))
    (h : offset < 0) :
    binary_write_body value max_value offset fs =
      Except.error (PyExc.valueError ValueErrKind.negOffset) := by
  unfold binary_write_body
  rw [if_pos h]

theorem binary_write_body_range (value max_value offset : Int) (fs : Option (List Nat))
    (h0 : ¬ offset < 0) (h : ¬ (0 ≤ value ∧ value ≤ max_value)) :
    binary_write_body value max_value offset fs =
      Except.error (PyExc.valueError ValueErrKind.range) := by
  unfold binary_write_body
  rw [if_neg h0, if_pos h]

theorem binary_write_body_notFound (value max_value offset : Int)
    (h0 : ¬ offset < 0) (h : 0 ≤ value ∧ value ≤ max_value) :
    binary_write_body value max_value offset none =
      Except.error PyExc.fileNotFoundError := by
  unfold binary_write_body
  rw [if_neg h0, if_neg (not_not_intro h)]

theorem binary_write_body_beyond (value max_value offset : Int) (content : List Nat)
    (h0 : ¬ offset < 0) (h1 : 0 ≤ value ∧ value ≤ max_value)
    (h2 : (content.length : Int) ≤ offset) :
    binary_write_body value max_value offset (some content) =
      Except.error (PyExc.valueError ValueErrKind.beyond) := by
  unfold binary_write_body
  rw [if_neg h0, if_neg (not_not_intro h1)]
  show (if (content.length : Int) ≤ offset then
      Except.error (PyExc.valueError ValueErrKind.beyond)
    else
      match bytesOfList value with
      | none => Except.error (PyExc.valueError ValueErrKind.byteRange)
      | some b => Except.ok (content.set offset.toNat b)) = _
  rw [if_pos h2]

theorem binary_write_body_byte (value max_value offset : Int) (content : List Nat)
    (h0 : ¬ offset < 0) (h1 : 0 ≤ value ∧ value ≤ max_value) (h255 : 255 < value)
    (h2 : ¬ (content.length : Int) ≤ offset) :
    binary_write_body value max_value offset (some content) =
      Except.error (PyExc.valueError ValueErrKind.byteRange) := by
  unfold binary_write_body
  rw [if_neg h0, if_neg (not_not_intro h1)]
  show (if (content.length : Int) ≤ offset then
      Except.error (PyExc.valueError ValueErrKind.beyond)
    else
      match bytesOfList value with
      | none => Except.error (PyExc.valueError ValueErrKind.byteRange)
      | some b => Except.ok (content.set offset.toNat b)) = _
  rw [if_neg h2]
  unfold bytesOfList
  rw [if_neg (by omega : ¬ ((0:Int) ≤ value ∧ value ≤ 255))]

theorem binary_write_body_ok (value max_value offset : Int) (content : List Nat)
    (hv0 : 0 ≤ value) (hv1 : value ≤ max_value) (hv2 : value ≤ 255)
    (h0 : ¬ offset < 0) (h2 : ¬ (content.length : Int) ≤ offset) :
    binary_write_body value max_value offset (some content) =
      Except.ok (content.set offset.toNat value.toNat) := by
  unfold binary_write_body
  rw [if_neg h0, if_neg (not_not_intro ⟨hv0, hv1⟩)]
  show (if (content.length : Int) ≤ offset then
      Except.error (PyExc.valueError ValueErrKind.beyond)
    else
      match bytesOfList value with
      | none => Except.error (PyExc.valueError ValueErrKind.byteRange)
      | some b => Except.ok (content.set offset.toNat b)) = _
  rw [if_neg h2]
  unfold bytesOfList
  rw [if_pos ⟨hv0, hv2⟩]

theorem binary_write_of_error (value max_value offset : Int) (fs0 : Option (List Nat))
    (e : PyExc) (h : binary_write_body value max_value offset fs0 = Except.error e) :
    binary_write value max_value offset fs0 = { fs := fs0, printed := [msgOfExc e] } := by
  unfold binary_write
  rw [h]
  cases e <;> rfl

theorem binary_write_of_ok (value max_value offset : Int) (fs0 : Option (List Nat))
    (content : List Nat)
    (h : binary_write_body value max_value offset fs0 = Except.ok content) :
    binary_write value max_value offset fs0 =
      { fs := some content, printed := [Msg.wrote value offset] } := by
  unfold binary_write
  rw [h]

theorem stripChars_contiguous (p : Char → Bool) (s : List Char) : stripChars p s <:+: s := by
  unfold stripChars
  exact (List.rdropWhile_prefix p (s.dropWhile p)).isInfix.trans
    (List.dropWhile_suffix p).isInfix

/-- C1: for every file whose size exceeds the offset, every offset that is
nonnegative, and every value with 0 <= value <= max_value <= 255,
binary_write replaces the byte at position offset with value, leaves every
other byte of the file unchanged, and leaves the file size unchanged. -/
theorem C1_patch_writes_exactly_one_byte
    (content : List Nat) (value max_value offset : Int)
    (hv0 : 0 ≤ value) (hv1 : value ≤ max_value) (hm : max_value ≤ 255)
    (ho0 : 0 ≤ offset) (ho1 : offset < (content.length : Int)) :
    (binary_write value max_value offset (some content)).fs =
      some (content.set offset.toNat value.toNat) ∧
    (content.set offset.toNat value.toNat).length = content.length ∧
    (content.set offset.toNat value.toNat)[offset.toNat]? = some value.toNat ∧
    ∀ i : Nat, i ≠ offset.toNat →
      (content.set offset.toNat value.toNat)[i]? = content[i]? := by
  have hb := binary_write_body_ok value max_value offset content hv0 hv1
    (hv1.trans hm) (by omega) (by omega)
  refine ⟨?_, List.length_set content offset.toNat value.toNat, ?_, ?_⟩
  · rw [binary_write_of_ok value max_value offset (some content) _ hb]
  · rw [List.getElem?_set_self]
    omega
  · intro i hi
    exact List.getElem?_set_ne (Ne.symm hi)

/-- C1 witness: patching the three byte file 0,0,0 at offset 1 with value 7
under ceiling 255. -/
theorem C1_patch_writes_exactly_one_byte_witness :
    (binary_write 7 255 1 (some [0, 0, 0])).fs =
      some (([0, 0, 0] : List Nat).set (1 : Int).toNat (7 : Int).toNat) ∧
    (([0, 0, 0] : List Nat).set (1 : Int).toNat (7 : Int).toNat).length =
      ([0, 0, 0] : List Nat).length ∧
    (([0, 0, 0] : List Nat).set (1 : Int).toNat (7 : Int).toNat)[(1 : Int).toNat]? =
      some (7 : Int).toNat ∧
    ∀ i : Nat, i ≠ (1 : Int).toNat →
      (([0, 0, 0] : List Nat).set (1 : Int).toNat (7 : Int).toNat)[i]? =
        ([0, 0, 0] : List Nat)[i]? :=
  C1_patch_writes_exactly_one_byte [0, 0, 0] 7 255 1 (by decide) (by decide)
    (by decide) (by decide) (by decide)

/-- C2 counterexample: at the concrete failing input offset -1 on an
existing one byte file, binary_write itself prints the error message (its
printed transcript is the Value Error line), so the engine does print and
its failure is not returned to the caller as a typed result. -/
theorem C2_counterexample_engine_prints :
    (binary_write 10 255 (-1) (some [0])).printed =
      [Msg.valueError ValueErrKind.negOffset] := by decide

/-- C2 amended: binary_write catches every exception its body can raise, so
it never aborts the process, and it reports every outcome, success or
failure, by printing exactly one message from inside the engine; nothing is
returned to the caller. -/
theorem C2_engine_prints_exactly_one_message
    (value max_value offset : Int) (fs0 : Option (List Nat)) :
    (binary_write value max_value offset fs0).printed.length = 1 := by
  unfold binary_write
  cases hb : binary_write_body value max_value offset fs0 with
  | error e => cases e <;> rfl
  | ok content => rfl

/-- C3: the pair (Farley, agility) has no entry in OFFSETS, and the lookup
performed by the editing flow raises a KeyError that no handler catches,
instead of yielding a distinct unsupported-combination error: no such error
exists anywhere in the code. -/
theorem C3_missing_pair_raises_keyError :
    OFFSETS character_name.Farley attributes.agility = none ∧
    edit_menu_lookup character_name.Farley attributes.agility =
      Except.error LookupExc.keyError :=
  ⟨rfl, rfl⟩

/-- C4: for every existing file and every offset at or beyond the end of the
file, with a value inside the allowed range so that the earlier checks pass,
binary_write fails with the beyond-end-of-file Value Error, performs no
write, and leaves the file content, hence its size, exactly as it was. -/
theorem C4_offset_beyond_file
    (content : List Nat) (value max_value offset : Int)
    (hv0 : 0 ≤ value) (hv1 : value ≤ max_value)
    (ho : (content.length : Int) ≤ offset) :
    binary_write value max_value offset (some content) =
      { fs := some content, printed := [Msg.valueError ValueErrKind.beyond] } :=
  binary_write_of_error value max_value offset (some content) _
    (binary_write_body_beyond value max_value offset content (by omega) ⟨hv0, hv1⟩ ho)

/-- C4 witness: offset 2 equals the size of the two byte file 0,0. -/
theorem C4_offset_beyond_file_witness :
    binary_write 1 255 2 (some [0, 0]) =
      { fs := some [0, 0], printed := [Msg.valueError ValueErrKind.beyond] } :=
  C4_offset_beyond_file [0, 0] 1 255 2 (by decide) (by decide) (by decide)

/-- C5: for every value below zero or above max_value, binary_write performs
no write, leaving the target file exactly as it was, and when the offset
check ahead of it passes the failure it reports is the value-range Value
Error. -/
theorem C5_value_out_of_range
    (fs0 : Option (List Nat)) (value max_value offset : Int)
    (hv : value < 0 ∨ max_value < value) :
    (binary_write value max_value offset fs0).fs = fs0 ∧
    (0 ≤ offset →
      binary_write value max_value offset fs0 =
        { fs := fs0, printed := [Msg.valueError ValueErrKind.range] }) := by
  have hnot : ¬ (0 ≤ value ∧ value ≤ max_value) := by
    rintro ⟨a, b⟩
    rcases hv with h | h <;> omega
  by_cases h0 : offset < 0
  · rw [binary_write_of_error value max_value offset fs0 _
      (binary_write_body_neg value max_value offset fs0 h0)]
    exact ⟨rfl, fun hc => absurd hc (by omega)⟩
  · rw [binary_write_of_error value max_value offset fs0 _
      (binary_write_body_range value max_value offset fs0 h0 hnot)]
    exact ⟨rfl, fun _ => rfl⟩

/-- C5 witness: value 300 with ceiling 255 at offset 0 of a one byte file. -/
theorem C5_value_out_of_range_witness :
    (binary_write 300 255 0 (some [0])).fs = some [0] ∧
    ((0 : Int) ≤ 0 →
      binary_write 300 255 0 (some [0]) =
        { fs := some [0], printed := [Msg.valueError ValueErrKind.range] }) :=
  C5_value_out_of_range (some [0]) 300 255 0 (Or.inr (by decide))

/-- C6: for every negative offset, every state of the target path (even a
missing file) and every value (even one outside the range), binary_write
fails with the negative-offset Value Error and performs no write: the
offset sign check is decided first, before the value range check and before
the file would be opened. -/
theorem C6_negative_offset_checked_first
    (fs0 : Option (List Nat)) (value max_value offset : Int)
    (ho : offset < 0) :
    binary_write value max_value offset fs0 =
      { fs := fs0, printed := [Msg.valueError ValueErrKind.negOffset] } :=
  binary_write_of_error value max_value offset fs0 _
    (binary_write_body_neg value max_value offset fs0 ho)

/-- C6 witness: offset -1 with a missing file and an out-of-range value -5
still reports the negative-offset error. -/
theorem C6_negative_offset_checked_first_witness :
    binary_write (-5) 255 (-1) none =
      { fs := none, printed := [Msg.valueError ValueErrKind.negOffset] } :=
  C6_negative_offset_checked_first none (-5) 255 (-1) (by decide)

/-- C7: for a target path with no file, a nonnegative offset and a value in
range, binary_write fails with the file-not-found message, performs no
write, and creates no file at the path: the file system state stays none. -/
theorem C7_missing_file
    (value max_value offset : Int)
    (hv0 : 0 ≤ value) (hv1 : value ≤ max_value) (ho : 0 ≤ offset) :
    binary_write value max_value offset none =
      { fs := none, printed := [Msg.fileNotFound] } :=
  binary_write_of_error value max_value offset none _
    (binary_write_body_notFound value max_value offset (by omega) ⟨hv0, hv1⟩)

/-- C7 witness: value 10, ceiling 255, offset 0 against a missing file. -/
theorem C7_missing_file_witness :
    binary_write 10 255 0 none = { fs := none, printed := [Msg.fileNotFound] } :=
  C7_missing_file 10 255 0 (by decide) (by decide) (by decide)

/-- C8: the exit choice, the single character 0, at the top-level character
selection menu prints the farewell line and terminates the process with
exit status 0 (the quit call raises SystemExit with code 0). -/
theorem C8_exit_choice_terminates_with_zero :
    main_menu_choice [Char.ofNat 48] =
      { printed := [[Char.ofNat 66, Char.ofNat 89, Char.ofNat 69,
                     Char.ofNat 33, Char.ofNat 33]],
        action := MainAction.exitProcess 0 } := by decide

/-- C9: for every value with 255 < value <= max_value the range validation
of binary_write passes, yet no byte is ever written: the file content is
returned unchanged, no success message is ever printed, and when all the
earlier checks pass the single-byte conversion fails and is caught
internally, printing the byte-range Value Error instead of corrupting the
file or letting the exception escape. -/
theorem C9_oversized_value_never_written
    (content : List Nat) (value max_value offset : Int)
    (hv : 255 < value) (hm : value ≤ max_value) :
    (binary_write value max_value offset (some content)).fs = some content ∧
    hasWrote (binary_write value max_value offset (some content)).printed = false ∧
    (0 ≤ offset → offset < (content.length : Int) →
      binary_write value max_value offset (some content) =
        { fs := some content, printed := [Msg.valueError ValueErrKind.byteRange] }) := by
  have hv0 : (0 : Int) ≤ value := by omega
  by_cases h0 : offset < 0
  · rw [binary_write_of_error value max_value offset (some content) _
      (binary_write_body_neg value max_value offset (some content) h0)]
    exact ⟨rfl, rfl, fun ha _ => absurd ha (by omega)⟩
  · by_cases h2 : (content.length : Int) ≤ offset
    · rw [binary_write_of_error value max_value offset (some content) _
        (binary_write_body_beyond value max_value offset content h0 ⟨hv0, hm⟩ h2)]
      exact ⟨rfl, rfl, fun _ hb => absurd hb (by omega)⟩
    · rw [binary_write_of_error value max_value offset (some content) _
        (binary_write_body_byte value max_value offset content h0 ⟨hv0, hm⟩ hv h2)]
      exact ⟨rfl, rfl, fun _ _ => rfl⟩

/-- C9 witness: value 300 under ceiling 300 at offset 0 of the one byte
file holding 5: the range check passes, the file is unchanged, and the
byte-range Value Error is printed. -/
theorem C9_oversized_value_never_written_witness :
    (binary_write 300 300 0 (some [5])).fs = some [5] ∧
    hasWrote (binary_write 300 300 0 (some [5])).printed = false ∧
    ((0 : Int) ≤ 0 → (0 : Int) < (([5] : List Nat).length : Int) →
      binary_write 300 300 0 (some [5]) =
        { fs := some [5], printed := [Msg.valueError ValueErrKind.byteRange] }) :=
  C9_oversized_value_never_written [5] 300 300 0 (by decide) (by decide)

/-- C10: clean_file_path builds its result only by removing characters from
the two ends of the raw input, so the character string it hands to the Path
constructor is always a contiguous substring of the input, with no interior
character altered. -/
theorem C10_clean_file_path_contiguous_substring (raw_path : List Char) :
    clean_file_path raw_path <:+: raw_path := by
  simp only [clean_file_path]
  refine ((stripChars_contiguous _ _).trans ((stripChars_contiguous _ _).trans ?_)).trans
    (stripChars_contiguous pyIsSpace raw_path)
  split
  · exact (List.drop_suffix _ _).isInfix
  · exact List.infix_rfl
